import Mathlib

/-!
Verification development for the Dyson factory-analysis tools.

Shallow embedding of the three analyzer modules
(`src/mcp_server/tools/bottleneck_analyzer.py`,
`src/mcp_server/tools/logistics_analyzer.py`,
`src/mcp_server/tools/power_analyzer.py`).

Modelling conventions:
- Python floats are modelled as rationals (`ℚ`); Python `int(x)` on a
  nonnegative argument is `Int.floor`.
- Python dicts with insertion-order iteration are modelled as association
  lists updated in insertion order.
- Presentation-only text fields built with float formatting (`root_cause`,
  `recommendation` strings of the bottleneck analyzer), display rounding
  (`round(x, 1)` / `round(x, 2)`) and the pass-through `timestamp` field are
  not modelled; no verified claim depends on them.  Where a decision is
  announced only through such a string (the power recommendations), the
  decision and its numeric payload are modelled as an inductive value.
-/

namespace Dyson

/-- `AssemblerMetrics` (external snapshot datum, `models/factory_state.py`,
shape per spec §3 and field usage in the analyzers). -/
structure AssemblerMetrics where
  recipe_id : Nat
  production_rate : ℚ
  theoretical_max : ℚ
  efficiency : ℚ
  input_starved : Bool
  output_blocked : Bool
deriving DecidableEq

/-- `BeltMetrics` (external snapshot datum, shape per spec §3). -/
structure BeltMetrics where
  belt_id : Nat
  item_type : String
  throughput : ℚ
  max_throughput : ℚ
  saturation_percent : ℚ
deriving DecidableEq

/-- `PowerState` (external snapshot datum, shape per spec §3). -/
structure PowerState where
  generation_mw : ℚ
  consumption_mw : ℚ
  surplus_mw : ℚ
  accumulator_charge_percent : ℚ
deriving DecidableEq

/-- `PlanetState` (external snapshot datum, shape per spec §3). -/
structure PlanetState where
  planet_name : String
  assemblers : List AssemblerMetrics
  belts : List BeltMetrics
  power : Option PowerState
deriving DecidableEq

/-- `FactoryState`: planet-id → `PlanetState` dict, modelled as an
association list in dict-iteration (insertion) order.  The `timestamp`
field is only echoed into reports and is not modelled. -/
structure FactoryState where
  planets : List (Nat × PlanetState)
deriving DecidableEq

/-- `RecipeInput` / `RecipeOutput` (`utils/recipe_database.py` interface,
shape per spec §3): item id, units per cycle, optional cached name. -/
structure RecipeItem where
  item_id : Nat
  count : ℚ
  item_name : Option String
deriving DecidableEq

/-- `Recipe` (shape per spec §3): id, building category, cycle time,
inputs, outputs and the designated primary output. -/
structure Recipe where
  id : Nat
  building : String
  time : ℚ
  inputs : List RecipeItem
  outputs : List RecipeItem
  primary_output : RecipeItem
deriving DecidableEq

/-- `recipe.primary_output_id` accessor used by the analyzers. -/
def Recipe.primary_output_id (r : Recipe) : Nat :=
  r.primary_output.item_id

/-- Interface of `RecipeDatabase` (`utils/recipe_database.py`).  The module
itself is not among the analyzed sources; the analyzers are parametrized by
this record of the operations they call on it (spec §4.1). -/
structure RecipeDatabase where
  get_recipe : Nat → Option Recipe
  get_item_name : Nat → String
  get_item_id : String → Option Nat
  calculate_theoretical_rate : Nat → Nat → ℚ
  trace_bottleneck_downstream : Nat → Nat → List (Nat × String)
  trace_bottleneck_upstream : Nat → Nat → List (Nat × String × Nat)

/-- Modelled from the spec: `utils/recipe_database.py` (the concrete
`RecipeDatabase` loader) is not under the analyzed sources.  This builds a
database from an explicit catalog following spec §4.1:
`get_recipe` is catalog lookup; `get_item_name` falls back to the synthetic
`item_<id>` placeholder; `get_item_id` is exact name lookup;
`calculate_theoretical_rate` is
`building_count × (primary_output.count / recipe.time) × 60`, and `0` when
the recipe is absent or `time ≤ 0`.  The two traversals are given for a
catalog with no consumer edges (every fixture recipe below has no consumer),
where spec §4.1 makes both traces empty. -/
def dbOfCatalog (items : List (Nat × String)) (recipes : List Recipe) :
    RecipeDatabase where
  get_recipe := fun rid => recipes.find? (fun r => r.id == rid)
  get_item_name := fun iid =>
    match items.find? (fun p => p.1 == iid) with
    | some p => p.2
    | none => "item_" ++ toString iid
  get_item_id := fun name => (items.find? (fun p => p.2 == name)).map (·.1)
  calculate_theoretical_rate := fun rid n =>
    match recipes.find? (fun r => r.id == rid) with
    | some r => if r.time > 0 then (n : ℚ) * (r.primary_output.count / r.time) * 60 else 0
    | none => 0
  trace_bottleneck_downstream := fun _ _ => []
  trace_bottleneck_upstream := fun _ _ => []

/-- `Bottleneck` record (`bottleneck_analyzer.py` lines 13-29), minus the
two presentation-only text fields (`root_cause`, `recommendation`). -/
structure Bottleneck where
  item_id : Nat
  item_name : String
  recipe_id : Nat
  bottleneck_type : String
  severity : ℚ
  affected_throughput : ℚ
  efficiency : ℚ
  upstream_items : List String
  downstream_impact : List String
  planet_id : Nat
  assembler_count : Nat
deriving DecidableEq

/-- Python `inp.item_name or db.get_item_name(inp.item_id)`: the cached
name is used unless it is `None` or the empty (falsy) string. -/
def resolveItemName (db : RecipeDatabase) (it : RecipeItem) : String :=
  match it.item_name with
  | some s => if s == "" then db.get_item_name it.item_id else s
  | none => db.get_item_name it.item_id

/-- `_get_upstream_items` (lines 251-256): names of the recipe's inputs. -/
def get_upstream_items (db : RecipeDatabase) (recipe_id : Nat) : List String :=
  match db.get_recipe recipe_id with
  | none => []
  | some recipe => recipe.inputs.map (resolveItemName db)

/-- `_get_downstream_items` (lines 258-261): downstream trace, depth 3. -/
def get_downstream_items (db : RecipeDatabase) (item_id : Nat) : List String :=
  (db.trace_bottleneck_downstream item_id 3).map (·.2)

/-- Count of assemblers in a group reporting `input_starved` (line 190). -/
def starvedCount (assemblers : List AssemblerMetrics) : Nat :=
  (assemblers.filter (·.input_starved)).length

/-- Count of assemblers in a group reporting `output_blocked` (line 191). -/
def blockedCount (assemblers : List AssemblerMetrics) : Nat :=
  (assemblers.filter (·.output_blocked)).length

/-- Total theoretical rate of a recipe group (lines 181-185):
`sum(a.theoretical_max ...) if assemblers[0].theoretical_max > 0 else 0`,
then, if that total is zero, `calculate_theoretical_rate(recipe_id, len)`.
The `[]` case is unreachable (groups are built from non-empty lists; Python
would raise `IndexError` there). -/
def totalTheoretical (db : RecipeDatabase) (recipe_id : Nat)
    (assemblers : List AssemblerMetrics) : ℚ :=
  match assemblers with
  | [] => 0
  | a0 :: _ =>
    let t : ℚ :=
      if a0.theoretical_max > 0 then (assemblers.map (·.theoretical_max)).sum else 0
    if t = 0 then db.calculate_theoretical_rate recipe_id assemblers.length else t

/-- Average-efficiency formula (line 187):
`(production / theoretical * 100) if theoretical > 0 else 100`. -/
def avgEfficiency (production theoretical : ℚ) : ℚ :=
  if theoretical > 0 then production / theoretical * 100 else 100

/-- The `Bottleneck` value constructed at lines 235-249 for a recipe group,
given the classified type and severity. -/
def mkGroupBottleneck (db : RecipeDatabase) (recipe_id : Nat) (recipe : Recipe)
    (a0 : AssemblerMetrics) (rest : List AssemblerMetrics)
    (include_downstream : Bool) (ty : String) (sev : ℚ) : Bottleneck :=
  { item_id := recipe.primary_output_id
    item_name := resolveItemName db recipe.primary_output
    recipe_id := recipe_id
    bottleneck_type := ty
    severity := sev
    affected_throughput :=
      totalTheoretical db recipe_id (a0 :: rest) -
        ((a0 :: rest).map (·.production_rate)).sum
    efficiency :=
      avgEfficiency (((a0 :: rest).map (·.production_rate)).sum)
        (totalTheoretical db recipe_id (a0 :: rest))
    upstream_items := (get_upstream_items db recipe_id).take 5
    downstream_impact :=
      (if include_downstream then get_downstream_items db recipe.primary_output_id else []).take 5
    planet_id := 0
    assembler_count := (a0 :: rest).length }

/-- Classification chain of `_analyze_recipe_group` (lines 193-229): the
fixed precedence `input_starvation`, then `output_blocked`, then
`low_efficiency`, thresholds as in the source (`> len * 0.3`,
`avg_efficiency < 80`). -/
def analyze_recipe_group_core (db : RecipeDatabase) (recipe_id : Nat)
    (recipe : Recipe) (a0 : AssemblerMetrics) (rest : List AssemblerMetrics)
    (include_downstream : Bool) : Option Bottleneck :=
  if (starvedCount (a0 :: rest) : ℚ) > ((a0 :: rest).length : ℚ) * (3 / 10) then
    some (mkGroupBottleneck db recipe_id recipe a0 rest include_downstream
      "input_starvation" ((starvedCount (a0 :: rest) : ℚ) / ((a0 :: rest).length : ℚ) * 100))
  else if (blockedCount (a0 :: rest) : ℚ) > ((a0 :: rest).length : ℚ) * (3 / 10) then
    some (mkGroupBottleneck db recipe_id recipe a0 rest include_downstream
      "output_blocked" ((blockedCount (a0 :: rest) : ℚ) / ((a0 :: rest).length : ℚ) * 100))
  else if avgEfficiency (((a0 :: rest).map (·.production_rate)).sum)
      (totalTheoretical db recipe_id (a0 :: rest)) < 80 then
    some (mkGroupBottleneck db recipe_id recipe a0 rest include_downstream
      "low_efficiency"
      (100 - avgEfficiency (((a0 :: rest).map (·.production_rate)).sum)
        (totalTheoretical db recipe_id (a0 :: rest))))
  else
    none

/-- `_analyze_recipe_group` (lines 167-249): `None` when the recipe is
absent, else the classification chain.  The empty-group case is unreachable
from `analyze` (Python would raise `IndexError` at `assemblers[0]`).  The
`planet` argument is read only by the unmodelled `root_cause` string. -/
def analyze_recipe_group (db : RecipeDatabase) (recipe_id : Nat)
    (assemblers : List AssemblerMetrics) (_planet : PlanetState)
    (include_downstream : Bool) : Option Bottleneck :=
  match db.get_recipe recipe_id, assemblers with
  | none, _ => none
  | some _, [] => none
  | some recipe, a0 :: rest =>
    analyze_recipe_group_core db recipe_id recipe a0 rest include_downstream

/-- Insertion step of the recipe grouping dict (lines 94-98): append to the
existing key's list, else add a new key at the end. -/
def insertGrouped (acc : List (Nat × List AssemblerMetrics))
    (a : AssemblerMetrics) : List (Nat × List AssemblerMetrics) :=
  match acc with
  | [] => [(a.recipe_id, [a])]
  | (k, xs) :: rest =>
    if k == a.recipe_id then (k, xs ++ [a]) :: rest
    else (k, xs) :: insertGrouped rest a

/-- Grouping of a planet's assemblers by `recipe_id` in dict insertion
order (lines 94-98). -/
def groupByRecipe (assemblers : List AssemblerMetrics) :
    List (Nat × List AssemblerMetrics) :=
  assemblers.foldl insertGrouped []

/-- `_is_in_dependency_chain` (lines 263-271). -/
def is_in_dependency_chain (db : RecipeDatabase) (recipe_id target_item_id : Nat) : Bool :=
  match db.get_recipe recipe_id with
  | none => false
  | some recipe =>
    (db.trace_bottleneck_downstream recipe.primary_output_id 5).any
      (fun p => p.1 == target_item_id)

/-- Target filter of `analyze` (lines 107-111): a group is skipped iff a
target id is set, the recipe's primary output differs from it and the
target is not in the downstream chain. -/
def shouldSkipTarget (db : RecipeDatabase) (target_item_id : Option Nat)
    (recipe : Recipe) (recipe_id : Nat) : Bool :=
  match target_item_id with
  | none => false
  | some t =>
    if recipe.primary_output_id == t then false
    else !is_in_dependency_chain db recipe_id t

/-- Per-planet pass of `analyze` over the recipe groups (lines 100-128):
collects this planet's bottlenecks (with `planet_id` set, line 122) and the
count of assemblers below 90% efficiency in the analyzed (non-skipped)
groups. -/
def planetGroupPass (db : RecipeDatabase) (target_item_id : Option Nat)
    (include_downstream : Bool) (pid : Nat) (planet : PlanetState) :
    List Bottleneck × Nat :=
  (groupByRecipe planet.assemblers).foldl
    (fun acc g =>
      match db.get_recipe g.1 with
      | none => acc
      | some recipe =>
        if shouldSkipTarget db target_item_id recipe g.1 then acc
        else
          let bs :=
            match analyze_recipe_group db g.1 g.2 planet include_downstream with
            | some b => acc.1 ++ [{ b with planet_id := pid }]
            | none => acc.1
          (bs, acc.2 + (g.2.filter (fun a => decide (a.efficiency < 90))).length))
    ([], 0)

/-- Stable descending insertion by severity: the element goes after every
already-placed element of greater-or-equal severity. -/
def insertDesc (b : Bottleneck) : List Bottleneck → List Bottleneck
  | [] => [b]
  | x :: xs => if x.severity ≥ b.severity then x :: insertDesc b xs else b :: x :: xs

/-- `bottlenecks.sort(key=severity, reverse=True)` (line 131): Python's
sort is stable; this stable insertion sort yields the same descending
order. -/
def sortBottlenecks (l : List Bottleneck) : List Bottleneck :=
  l.foldl (fun acc b => insertDesc b acc) []

/-- Insertion-ordered counting dict `by_type` (lines 334-336). -/
def bumpCount (acc : List (String × Nat)) (t : String) : List (String × Nat) :=
  match acc with
  | [] => [(t, 1)]
  | (k, c) :: rest =>
    if k == t then (k, c + 1) :: rest else (k, c) :: bumpCount rest t

/-- `max(by_type, key=by_type.get)` (line 338): first key of maximal count
in insertion order (Python `max` keeps the earlier key on ties). -/
def mostCommonType (bottlenecks : List Bottleneck) : String :=
  match bottlenecks.foldl (fun acc b => bumpCount acc b.bottleneck_type) [] with
  | [] => "unknown"
  | p :: rest => (rest.foldl (fun best q => if q.2 > best.2 then q else best) p).1

/-- Summary dict of `_generate_summary` (lines 318-351); keys present only
in the non-healthy branch are `Option`-valued.  The presentation-only
`message` string and `round(..., 1)` display rounding are not modelled. -/
structure Summary where
  status : String
  efficiency : ℚ
  total_bottlenecks : Option Nat
  most_common_type : Option String
  most_severe_type : Option String
deriving DecidableEq

/-- `_generate_summary` (lines 318-351). -/
def generate_summary (bottlenecks : List Bottleneck)
    (total_assemblers inefficient_assemblers : Nat) : Summary :=
  match bottlenecks with
  | [] =>
    { status := "healthy"
      efficiency :=
        if total_assemblers = 0 then 100
        else (1 - (inefficient_assemblers : ℚ) / (total_assemblers : ℚ)) * 100
      total_bottlenecks := none
      most_common_type := none
      most_severe_type := none }
  | most_severe :: _ =>
    { status :=
        if most_severe.severity > 80 then "critical"
        else if most_severe.severity > 50 then "warning"
        else "minor"
      efficiency :=
        (1 - (inefficient_assemblers : ℚ) / (max 1 total_assemblers : ℚ)) * 100
      total_bottlenecks := some bottlenecks.length
      most_common_type := some (mostCommonType bottlenecks)
      most_severe_type := some most_severe.bottleneck_type }

/-- One step of `_build_critical_path` (lines 296-314). -/
structure CriticalPathStep where
  item_id : Nat
  recipe_id : Nat
  has_bottleneck : Bool
  bottleneck_type : Option String
  severity : Option ℚ
deriving DecidableEq

/-- `_build_critical_path` (lines 273-316).  The `target_item_id` parameter
is accepted and unused, as in the source. -/
def build_critical_path (db : RecipeDatabase) (bottlenecks : List Bottleneck)
    (_target_item_id : Option Nat) : List CriticalPathStep :=
  match bottlenecks with
  | [] => []
  | root :: _ =>
    (db.trace_bottleneck_upstream root.item_id 5).map
      (fun step =>
        match bottlenecks.find? (fun b => b.item_id == step.1) with
        | some mb =>
          { item_id := step.1, recipe_id := step.2.2, has_bottleneck := true
            bottleneck_type := some mb.bottleneck_type, severity := some mb.severity }
        | none =>
          { item_id := step.1, recipe_id := step.2.2, has_bottleneck := false
            bottleneck_type := none, severity := none })

/-- Planet scope filter (lines 87-88): a planet is processed iff no
`planet_id` filter is set or it matches. -/
def planetFilterMatch (planet_id : Option Nat) (pid : Nat) : Bool :=
  match planet_id with
  | none => true
  | some q => pid == q

/-- Accumulator of the planet loop of `analyze` (lines 76-128):
bottlenecks, planets analyzed, total assemblers, inefficient assemblers. -/
structure AnalyzeAcc where
  bottlenecks : List Bottleneck
  planets_analyzed : Nat
  total_assemblers : Nat
  inefficient_assemblers : Nat
deriving DecidableEq

/-- One iteration of the planet loop of `analyze` (lines 86-128). -/
def analyzeStep (db : RecipeDatabase) (planet_id : Option Nat)
    (target_item_id : Option Nat) (include_downstream : Bool)
    (acc : AnalyzeAcc) (pp : Nat × PlanetState) : AnalyzeAcc :=
  if planetFilterMatch planet_id pp.1 then
    let pass := planetGroupPass db target_item_id include_downstream pp.1 pp.2
    { bottlenecks := acc.bottlenecks ++ pass.1
      planets_analyzed := acc.planets_analyzed + 1
      total_assemblers := acc.total_assemblers + pp.2.assemblers.length
      inefficient_assemblers := acc.inefficient_assemblers + pass.2 }
  else acc

/-- Bottleneck report (lines 139-165); `bottlenecks` is the top-10 list. -/
structure BottleneckReport where
  planets_analyzed : Nat
  total_assemblers : Nat
  inefficient_assemblers : Nat
  bottlenecks_found : Nat
  summary : Summary
  bottlenecks : List Bottleneck
  critical_path : List CriticalPathStep
deriving DecidableEq

/-- Body of `analyze` after target-name resolution (lines 76-165). -/
def analyzeWithTid (db : RecipeDatabase) (state : FactoryState)
    (planet_id : Option Nat) (target_item_id : Option Nat)
    (include_downstream : Bool) : BottleneckReport :=
  let acc := state.planets.foldl
    (analyzeStep db planet_id target_item_id include_downstream)
    ⟨[], 0, 0, 0⟩
  let sorted := sortBottlenecks acc.bottlenecks
  { planets_analyzed := acc.planets_analyzed
    total_assemblers := acc.total_assemblers
    inefficient_assemblers := acc.inefficient_assemblers
    bottlenecks_found := sorted.length
    summary := generate_summary sorted acc.total_assemblers acc.inefficient_assemblers
    bottlenecks := sorted.take 10
    critical_path :=
      if include_downstream then build_critical_path db sorted target_item_id else [] }

/-- Target-name resolution of `analyze` (lines 82-84): `if target_item:`
is Python truthiness, so the empty string is treated like `None`. -/
def resolveTarget (db : RecipeDatabase) : Option String → Option Nat
  | some name => if name == "" then none else db.get_item_id name
  | none => none

/-- `BottleneckAnalyzer.analyze` (lines 53-165).  The unused `time_window`
parameter of the source is omitted. -/
def analyze (db : RecipeDatabase) (state : FactoryState)
    (planet_id : Option Nat) (target_item : Option String)
    (include_downstream : Bool) : BottleneckReport :=
  analyzeWithTid db state planet_id (resolveTarget db target_item) include_downstream

/-! Logistics analyzer (`logistics_analyzer.py`). -/

/-- Belt tier maximum throughput in items/sec (lines 14-18). -/
def BELT_TIERS : String → ℚ
  | "mk1" => 6
  | "mk2" => 12
  | "mk3" => 30
  | _ => 0

/-- `ThroughputRequirement` record (lines 21-31). -/
structure ThroughputRequirement where
  item_id : Nat
  item_name : String
  production_rate : ℚ
  consumption_rate : ℚ
  net_rate : ℚ
  required_belt_tier : String
  belt_count_needed : ℤ
deriving DecidableEq

/-- Tier/count selection of `_calculate_throughput_requirements`
(lines 191-200): smallest tier whose capacity bound admits the flow, and
`max(1, int(flow/cap) + 1) if flow > 0 else 0`.  Python `int` truncates
toward zero; the flow is nonnegative here, so it is `Int.floor`. -/
def requiredBeltTier (flow_per_sec : ℚ) : String × ℤ :=
  if flow_per_sec ≤ BELT_TIERS "mk1" then
    ("mk1",
      if flow_per_sec > 0 then max 1 (⌊flow_per_sec / BELT_TIERS "mk1"⌋ + 1) else 0)
  else if flow_per_sec ≤ BELT_TIERS "mk2" then
    ("mk2",
      if flow_per_sec > 0 then max 1 (⌊flow_per_sec / BELT_TIERS "mk2"⌋ + 1) else 0)
  else
    ("mk3",
      if flow_per_sec > 0 then max 1 (⌊flow_per_sec / BELT_TIERS "mk3"⌋ + 1) else 0)

/-- Insertion-ordered accumulation dict `d[k] = d.get(k, 0) + v`
(lines 164-176). -/
def addToDict (d : List (Nat × ℚ)) (k : Nat) (v : ℚ) : List (Nat × ℚ) :=
  match d with
  | [] => [(k, v)]
  | (k0, v0) :: rest =>
    if k0 == k then (k0, v0 + v) :: rest else (k0, v0) :: addToDict rest k v

/-- `dict.get(k, 0)` lookup. -/
def lookupDict (d : List (Nat × ℚ)) (k : Nat) : ℚ :=
  match d.find? (fun p => p.1 == k) with
  | some p => p.2
  | none => 0

/-- Production / consumption aggregation of
`_calculate_throughput_requirements` (lines 154-176).  Note that the
consumption pass divides by `recipe.primary_output.count`; in Python a zero
count there would raise `ZeroDivisionError`, in `ℚ` the quotient is 0. -/
def throughputDicts (db : RecipeDatabase) (assemblers : List AssemblerMetrics) :
    List (Nat × ℚ) × List (Nat × ℚ) :=
  assemblers.foldl
    (fun acc a =>
      match db.get_recipe a.recipe_id with
      | none => acc
      | some recipe =>
        let prod := recipe.outputs.foldl
          (fun d out => addToDict d out.item_id a.production_rate) acc.1
        let cons :=
          if a.production_rate > (0 : ℚ) ∧ recipe.time > (0 : ℚ) then
            let cycles_per_min := a.production_rate / recipe.primary_output.count
            recipe.inputs.foldl
              (fun d inp => addToDict d inp.item_id (cycles_per_min * inp.count)) acc.2
          else acc.2
        (prod, cons))
    ([], [])

/-- `_calculate_throughput_requirements` (lines 149-212).  Python iterates
`set(production) | set(consumption)` in unspecified set order; this fixes
the order "production keys first, then new consumption keys" — no verified
claim depends on the order of the returned list. -/
def calculate_throughput_requirements (db : RecipeDatabase)
    (assemblers : List AssemblerMetrics) : List ThroughputRequirement :=
  let dicts := throughputDicts db assemblers
  let prodKeys := dicts.1.map (·.1)
  let all_items := prodKeys ++ (dicts.2.map (·.1)).filter (fun k => !prodKeys.contains k)
  all_items.map (fun item_id =>
    let production := lookupDict dicts.1 item_id
    let consumption := lookupDict dicts.2 item_id
    let max_flow := max production consumption
    let flow_per_sec := max_flow / 60
    let tier := requiredBeltTier flow_per_sec
    { item_id := item_id
      item_name := db.get_item_name item_id
      production_rate := production
      consumption_rate := consumption
      net_rate := production - consumption
      required_belt_tier := tier.1
      belt_count_needed := tier.2 })

/-! Power analyzer (`power_analyzer.py`). -/

/-- Decision content of `_generate_recommendation` (lines 225-235); the
source renders it as a formatted string, modelled here with the numeric
payloads the string carries. -/
inductive PowerRecommendation where
  | minor_deficit (deficit : ℚ)
  | moderate_deficit (deficit : ℚ) (fusion_plants : ℤ)
  | major_deficit (deficit : ℚ)
deriving DecidableEq

/-- `_generate_recommendation` (lines 225-235): tier by deficit magnitude;
`plants_needed = int(deficit / 15) + 1` with `int` = floor on the
nonnegative deficit. -/
def generate_recommendation (power : PowerState) : PowerRecommendation :=
  let deficit := |power.surplus_mw|
  if deficit < 10 then .minor_deficit deficit
  else if deficit < 50 then .moderate_deficit deficit (⌊deficit / 15⌋ + 1)
  else .major_deficit deficit

/-- Per-planet entry of the power report (lines 93-104); display rounding
and the accumulator string are not modelled. -/
structure PlanetPowerReport where
  planet_id : Nat
  generation_mw : ℚ
  consumption_mw : ℚ
  surplus_mw : ℚ
  status : String
  recommendation : Option PowerRecommendation
deriving DecidableEq

/-- Per-planet processing of `PowerAnalyzer.analyze` (lines 93-104):
status by surplus sign, recommendation attached only on deficit. -/
def planetPowerEntry (pid : Nat) (power : PowerState) : PlanetPowerReport :=
  { planet_id := pid
    generation_mw := power.generation_mw
    consumption_mw := power.consumption_mw
    surplus_mw := power.surplus_mw
    status := if power.surplus_mw ≥ 0 then "surplus" else "deficit"
    recommendation :=
      if power.surplus_mw < 0 then some (generate_recommendation power) else none }

/-- Decision content of `_global_recommendations` (lines 237-259); each
constructor stands for one appended message, with its numeric payload. -/
inductive GlobalPowerRec where
  | critical_deficit (amount : ℚ)
  | warning_low_surplus (surplus_percent : ℚ)
  | consider_adding_generation
  | healthy_surplus (surplus_percent : ℚ)
deriving DecidableEq

/-- `_global_recommendations` (lines 237-259). -/
def global_recommendations (generation consumption : ℚ) : List GlobalPowerRec :=
  let surplus := generation - consumption
  let surplus_percent := if consumption > 0 then surplus / consumption * 100 else 100
  if surplus < 0 then [.critical_deficit |surplus|]
  else if surplus_percent < 10 then
    [.warning_low_surplus surplus_percent, .consider_adding_generation]
  else if surplus_percent > 50 then [.healthy_surplus surplus_percent]
  else []

/-- Whether a recommendation list contains a CRITICAL deficit entry. -/
def hasCritical (l : List GlobalPowerRec) : Bool :=
  l.any (fun r => match r with | .critical_deficit _ => true | _ => false)

/-- Whether a recommendation list contains a WARNING low-surplus entry. -/
def hasWarning (l : List GlobalPowerRec) : Bool :=
  l.any (fun r => match r with | .warning_low_surplus _ => true | _ => false)

/-- Whether a recommendation list contains the healthy-surplus note. -/
def hasHealthy (l : List GlobalPowerRec) : Bool :=
  l.any (fun r => match r with | .healthy_surplus _ => true | _ => false)

/-! Spec-words comparison definitions (for refinement checks only; the
definitions above are translated from the source). -/

/-- The total theoretical rate as the spec's words state it (spec §4.2
step 3): the sum of the assemblers' `theoretical_max` when those are all
populated and nonzero, else derived via `calculate_theoretical_rate`.
Stated only for comparison with `totalTheoretical`, which is translated
from the source. -/
def totalTheoreticalClaimed (db : RecipeDatabase) (recipe_id : Nat)
    (assemblers : List AssemblerMetrics) : ℚ :=
  if ∀ a ∈ assemblers, a.theoretical_max ≠ 0 then
    (assemblers.map (·.theoretical_max)).sum
  else db.calculate_theoretical_rate recipe_id assemblers.length

/-- The belt count as the spec's words state it (spec §4.3): `ceil` of the
flow divided by the chosen tier's capacity, minimum 1 when the flow is
positive, 0 otherwise.  Stated only for comparison with
`requiredBeltTier`, which is translated from the source. -/
def beltCountClaimed (flow_per_sec : ℚ) (tier : String) : ℤ :=
  if flow_per_sec > 0 then max 1 ⌈flow_per_sec / BELT_TIERS tier⌉ else 0

/-! Concrete fixtures used by witnesses and counterexamples. -/

/-- Primary output of the fixture recipes: item 42, one unit per cycle. -/
def outW : RecipeItem := { item_id := 42, count := 1, item_name := some "iron_ingot" }

/-- Fixture recipe 1: one `iron_ingot` per 1-second cycle, no inputs. -/
def recipeW : Recipe :=
  { id := 1, building := "assembler", time := 1, inputs := [], outputs := [outW]
    primary_output := outW }

/-- Fixture recipe 2: `time = 0`, so its derived theoretical rate is 0. -/
def recipeZ : Recipe :=
  { id := 2, building := "assembler", time := 0, inputs := [], outputs := [outW]
    primary_output := outW }

/-- Fixture database over the two fixture recipes. -/
def dbW : RecipeDatabase := dbOfCatalog [(42, "iron_ingot")] [recipeW, recipeZ]

/-- Fixture assembler on recipe 1, input-starved. -/
def aS : AssemblerMetrics :=
  { recipe_id := 1, production_rate := 0, theoretical_max := 0, efficiency := 100
    input_starved := true, output_blocked := false }

/-- Fixture assembler on recipe 1, output-blocked. -/
def aB : AssemblerMetrics :=
  { recipe_id := 1, production_rate := 0, theoretical_max := 0, efficiency := 100
    input_starved := false, output_blocked := true }

/-- Fixture assembler on recipe 1, healthy. -/
def aH : AssemblerMetrics :=
  { recipe_id := 1, production_rate := 0, theoretical_max := 0, efficiency := 100
    input_starved := false, output_blocked := false }

/-- Fixture group of 4 assemblers: 2 input-starved, 2 output-blocked. -/
def grpW : List AssemblerMetrics := [aS, aS, aB, aB]

/-- Fixture planet with no buildings. -/
def planetW : PlanetState := { planet_name := "w", assemblers := [], belts := [], power := none }

/-- Fixture assembler on recipe 2 (the zero-time recipe), input-starved. -/
def aZ : AssemblerMetrics :=
  { recipe_id := 2, production_rate := 0, theoretical_max := 0, efficiency := 100
    input_starved := true, output_blocked := false }

/-- Fixture assembler producing 360 items/min of item 42 (recipe 1), which
is a flow of exactly 6 items/sec. -/
def asmC2 : AssemblerMetrics :=
  { recipe_id := 1, production_rate := 360, theoretical_max := 0, efficiency := 100
    input_starved := false, output_blocked := false }

/-- Fixture assembler with `theoretical_max = 10` (first of its group). -/
def a5a : AssemblerMetrics :=
  { recipe_id := 1, production_rate := 0, theoretical_max := 10, efficiency := 100
    input_starved := false, output_blocked := false }

/-- Fixture assembler with `theoretical_max = 0` (second of its group). -/
def a5b : AssemblerMetrics :=
  { recipe_id := 1, production_rate := 0, theoretical_max := 0, efficiency := 100
    input_starved := false, output_blocked := false }

/-- Fixture snapshot with one planet and no buildings. -/
def stateE : FactoryState :=
  { planets := [(1, { planet_name := "e", assemblers := [], belts := [], power := none })] }

/-- Fixture snapshot with one planet carrying the `grpW` group. -/
def stateW : FactoryState :=
  { planets := [(1, { planet_name := "p", assemblers := grpW, belts := [], power := none })] }

/-- Fixture power state: generation 80 MW, consumption 100 MW,
surplus −20 MW. -/
def powerW : PowerState :=
  { generation_mw := 80, consumption_mw := 100, surplus_mw := -20
    accumulator_charge_percent := 0 }

/-! Helper lemmas shared by the claim theorems. -/

/-- When the recipe resolves, `analyze_recipe_group` on a non-empty group
is the classification chain. -/
lemma analyze_recipe_group_eq_core (db : RecipeDatabase) (rid : Nat)
    (a0 : AssemblerMetrics) (rest : List AssemblerMetrics)
    (planet : PlanetState) (inc : Bool) (recipe : Recipe)
    (hdb : db.get_recipe rid = some recipe) :
    analyze_recipe_group db rid (a0 :: rest) planet inc =
      analyze_recipe_group_core db rid recipe a0 rest inc := by
  simp only [analyze_recipe_group]
  rw [hdb]

/-- When the recipe does not resolve, `analyze_recipe_group` returns
nothing. -/
lemma analyze_recipe_group_eq_none (db : RecipeDatabase) (rid : Nat)
    (assemblers : List AssemblerMetrics) (planet : PlanetState) (inc : Bool)
    (hdb : db.get_recipe rid = none) :
    analyze_recipe_group db rid assemblers planet inc = none := by
  simp only [analyze_recipe_group]
  rw [hdb]

/-- Starved branch of the classification chain, as an equation. -/
lemma analyze_recipe_group_starved (db : RecipeDatabase) (rid : Nat)
    (a0 : AssemblerMetrics) (rest : List AssemblerMetrics)
    (planet : PlanetState) (inc : Bool) (recipe : Recipe)
    (hdb : db.get_recipe rid = some recipe)
    (hs : (starvedCount (a0 :: rest) : ℚ) > ((a0 :: rest).length : ℚ) * (3 / 10)) :
    analyze_recipe_group db rid (a0 :: rest) planet inc =
      some (mkGroupBottleneck db rid recipe a0 rest inc "input_starvation"
        ((starvedCount (a0 :: rest) : ℚ) / ((a0 :: rest).length : ℚ) * 100)) := by
  rw [analyze_recipe_group_eq_core db rid a0 rest planet inc recipe hdb]
  simp only [analyze_recipe_group_core]
  rw [if_pos hs]

/-! Claim theorems. -/

/-- C1: for every recipe group of assemblers, bottleneck classification
follows the fixed precedence `input_starvation`, then `output_blocked`,
then `low_efficiency`, with the first matching rule winning; in particular
a group with both more than 30% starved and more than 30% blocked
buildings is classified `input_starvation`, never `output_blocked`. -/
theorem bottleneck_classification_precedence
    (db : RecipeDatabase) (rid : Nat) (a0 : AssemblerMetrics)
    (rest : List AssemblerMetrics) (planet : PlanetState) (inc : Bool)
    (b : Bottleneck)
    (hb : analyze_recipe_group db rid (a0 :: rest) planet inc = some b) :
    ((starvedCount (a0 :: rest) : ℚ) > ((a0 :: rest).length : ℚ) * (3 / 10) →
      b.bottleneck_type = "input_starvation") ∧
    (¬((starvedCount (a0 :: rest) : ℚ) > ((a0 :: rest).length : ℚ) * (3 / 10)) →
      (blockedCount (a0 :: rest) : ℚ) > ((a0 :: rest).length : ℚ) * (3 / 10) →
      b.bottleneck_type = "output_blocked") ∧
    (¬((starvedCount (a0 :: rest) : ℚ) > ((a0 :: rest).length : ℚ) * (3 / 10)) →
      ¬((blockedCount (a0 :: rest) : ℚ) > ((a0 :: rest).length : ℚ) * (3 / 10)) →
      b.bottleneck_type = "low_efficiency") := by
  cases hdb : db.get_recipe rid with
  | none =>
    rw [analyze_recipe_group_eq_none db rid (a0 :: rest) planet inc hdb] at hb
    exact Option.noConfusion hb
  | some recipe =>
    rw [analyze_recipe_group_eq_core db rid a0 rest planet inc recipe hdb] at hb
    simp only [analyze_recipe_group_core] at hb
    split_ifs at hb with h1 h2 h3
    · injection hb with hb
      subst hb
      exact ⟨fun _ => rfl, fun hn _ => absurd h1 hn, fun hn _ => absurd h1 hn⟩
    · injection hb with hb
      subst hb
      exact ⟨fun hs => absurd hs h1, fun _ _ => rfl, fun _ hnb => absurd h2 hnb⟩
    · injection hb with hb
      subst hb
      exact ⟨fun hs => absurd hs h1, fun _ hb2 => absurd hb2 h2, fun _ _ => rfl⟩

/-- C3: for every recipe group whose input-starved fraction strictly
exceeds 0.3 (and whose recipe resolves), a bottleneck of type
`input_starvation` is recorded with severity equal to that fraction times
100. -/
theorem starvation_bottleneck_severity
    (db : RecipeDatabase) (rid : Nat) (a0 : AssemblerMetrics)
    (rest : List AssemblerMetrics) (planet : PlanetState) (inc : Bool)
    (recipe : Recipe)
    (hdb : db.get_recipe rid = some recipe)
    (hs : (starvedCount (a0 :: rest) : ℚ) > ((a0 :: rest).length : ℚ) * (3 / 10)) :
    ∃ b, analyze_recipe_group db rid (a0 :: rest) planet inc = some b ∧
      b.bottleneck_type = "input_starvation" ∧
      b.severity = (starvedCount (a0 :: rest) : ℚ) / ((a0 :: rest).length : ℚ) * 100 := by
  exact ⟨_, analyze_recipe_group_starved db rid a0 rest planet inc recipe hdb hs, rfl, rfl⟩

/-- C4: bottleneck severity is strictly monotonic in the starved fraction:
for two recipe groups of the same size on the same recipe, both past the
30% threshold, the group with strictly more starved buildings receives
strictly greater severity. -/
theorem starvation_severity_strict_mono
    (db : RecipeDatabase) (rid : Nat)
    (a1 : AssemblerMetrics) (r1 : List AssemblerMetrics)
    (a2 : AssemblerMetrics) (r2 : List AssemblerMetrics)
    (planet : PlanetState) (inc : Bool) (b1 b2 : Bottleneck)
    (hlen : (a1 :: r1).length = (a2 :: r2).length)
    (hs1 : (starvedCount (a1 :: r1) : ℚ) > ((a1 :: r1).length : ℚ) * (3 / 10))
    (hlt : starvedCount (a1 :: r1) < starvedCount (a2 :: r2))
    (hb1 : analyze_recipe_group db rid (a1 :: r1) planet inc = some b1)
    (hb2 : analyze_recipe_group db rid (a2 :: r2) planet inc = some b2) :
    b1.severity < b2.severity := by
  cases hdb : db.get_recipe rid with
  | none =>
    rw [analyze_recipe_group_eq_none db rid (a1 :: r1) planet inc hdb] at hb1
    exact Option.noConfusion hb1
  | some recipe =>
    have hcast : (starvedCount (a1 :: r1) : ℚ) < (starvedCount (a2 :: r2) : ℚ) := by
      exact_mod_cast hlt
    have hs2 : (starvedCount (a2 :: r2) : ℚ) > ((a2 :: r2).length : ℚ) * (3 / 10) := by
      rw [← hlen]
      linarith
    rw [analyze_recipe_group_starved db rid a1 r1 planet inc recipe hdb hs1] at hb1
    rw [analyze_recipe_group_starved db rid a2 r2 planet inc recipe hdb hs2] at hb2
    injection hb1 with hb1
    injection hb2 with hb2
    subst hb1
    subst hb2
    simp only [mkGroupBottleneck]
    rw [← hlen]
    have hn : (0 : ℚ) < ((a1 :: r1).length : ℚ) := by
      exact_mod_cast Nat.succ_pos r1.length
    exact mul_lt_mul_of_pos_right ((div_lt_div_iff_of_pos_right hn).mpr hcast) (by norm_num)

/-- C6: a recipe group whose total theoretical rate is 0 gets average
efficiency 100 (the zero denominator is guarded), so a bottleneck recorded
for it reports efficiency 100 and is never of type `low_efficiency`. -/
theorem zero_theoretical_full_efficiency
    (db : RecipeDatabase) (rid : Nat) (a0 : AssemblerMetrics)
    (rest : List AssemblerMetrics) (planet : PlanetState) (inc : Bool)
    (b : Bottleneck)
    (h0 : totalTheoretical db rid (a0 :: rest) = 0)
    (hb : analyze_recipe_group db rid (a0 :: rest) planet inc = some b) :
    avgEfficiency (((a0 :: rest).map (·.production_rate)).sum)
      (totalTheoretical db rid (a0 :: rest)) = 100 ∧
    b.efficiency = 100 ∧ b.bottleneck_type ≠ "low_efficiency" := by
  have heff : avgEfficiency (((a0 :: rest).map (·.production_rate)).sum)
      (totalTheoretical db rid (a0 :: rest)) = 100 := by
    rw [h0]
    simp [avgEfficiency]
  refine ⟨heff, ?_⟩
  cases hdb : db.get_recipe rid with
  | none =>
    rw [analyze_recipe_group_eq_none db rid (a0 :: rest) planet inc hdb] at hb
    exact Option.noConfusion hb
  | some recipe =>
    rw [analyze_recipe_group_eq_core db rid a0 rest planet inc recipe hdb] at hb
    simp only [analyze_recipe_group_core] at hb
    split_ifs at hb with h1 h2 h3
    · injection hb with hb
      subst hb
      exact ⟨heff, by simp [mkGroupBottleneck]⟩
    · injection hb with hb
      subst hb
      exact ⟨heff, by simp [mkGroupBottleneck]⟩
    · rw [heff] at h3
      norm_num at h3

/-- The planet loop leaves the bottleneck list and the assembler counters
untouched when every in-scope planet has no assemblers. -/
lemma analyzeStep_foldl_empty (db : RecipeDatabase) (pid tid : Option Nat)
    (inc : Bool) :
    ∀ (ps : List (Nat × PlanetState)) (acc : AnalyzeAcc),
      (∀ p ∈ ps, planetFilterMatch pid p.1 = true → p.2.assemblers = []) →
      (ps.foldl (analyzeStep db pid tid inc) acc).bottlenecks = acc.bottlenecks ∧
      (ps.foldl (analyzeStep db pid tid inc) acc).total_assemblers = acc.total_assemblers ∧
      (ps.foldl (analyzeStep db pid tid inc) acc).inefficient_assemblers =
        acc.inefficient_assemblers := by
  intro ps
  induction ps with
  | nil => exact fun acc _ => ⟨rfl, rfl, rfl⟩
  | cons p ps ih =>
    intro acc h
    have hrest : ∀ q ∈ ps, planetFilterMatch pid q.1 = true → q.2.assemblers = [] :=
      fun q hq => h q (List.mem_cons_of_mem _ hq)
    rw [List.foldl_cons]
    cases hm : planetFilterMatch pid p.1 with
    | false =>
      have hstep : analyzeStep db pid tid inc acc p = acc := by
        simp [analyzeStep, hm]
      rw [hstep]
      exact ih acc hrest
    | true =>
      have hpa : p.2.assemblers = [] := h p (List.mem_cons_self p ps) hm
      have hpass : planetGroupPass db tid inc p.1 p.2 = ([], 0) := by
        simp [planetGroupPass, hpa, groupByRecipe]
      have hstep : analyzeStep db pid tid inc acc p =
          ⟨acc.bottlenecks, acc.planets_analyzed + 1, acc.total_assemblers,
            acc.inefficient_assemblers⟩ := by
        simp [analyzeStep, hm, hpass, hpa]
      rw [hstep]
      exact ih _ hrest

/-- C7: when no assembler buildings exist on any planet in scope, the
bottleneck analysis reports summary status `healthy`, summary efficiency
100, and an empty bottleneck list. -/
theorem no_buildings_healthy_report
    (db : RecipeDatabase) (state : FactoryState) (planet_id : Option Nat)
    (target_item : Option String) (inc : Bool)
    (h : ∀ p ∈ state.planets, planetFilterMatch planet_id p.1 = true →
      p.2.assemblers = []) :
    (analyze db state planet_id target_item inc).summary.status = "healthy" ∧
    (analyze db state planet_id target_item inc).summary.efficiency = 100 ∧
    (analyze db state planet_id target_item inc).bottlenecks = [] := by
  obtain ⟨h1, h2, h3⟩ := analyzeStep_foldl_empty db planet_id
    (resolveTarget db target_item) inc state.planets ⟨[], 0, 0, 0⟩ h
  refine ⟨?_, ?_, ?_⟩ <;>
    simp [analyze, analyzeWithTid, h1, h2, h3, generate_summary, sortBottlenecks]

/-- C10: a supplied `target_item` that does not resolve to any item id is
silently dropped — the analysis result is identical to calling with no
`target_item` at all. -/
theorem unresolved_target_ignored
    (db : RecipeDatabase) (state : FactoryState) (planet_id : Option Nat)
    (name : String) (inc : Bool)
    (h : db.get_item_id name = none) :
    analyze db state planet_id (some name) inc =
      analyze db state planet_id none inc := by
  simp only [analyze, resolveTarget]
  cases hn : (name == "") <;> simp [hn, h]

/-- C2 (amended): the required tier is the smallest of the fixed tiers
whose capacity covers the flow (`mk3` when none covers it), and the belt
count is `⌊flow / capacity⌋ + 1` when the flow is positive — that is,
`ceil` for flows that are not exact multiples of the capacity, but
`ceil + 1` at exact multiples — and 0 when the flow is zero. -/
theorem belt_tier_amended (f : ℚ) (hf : 0 ≤ f) :
    (f ≤ 30 → f ≤ BELT_TIERS (requiredBeltTier f).1) ∧
    (∀ t ∈ (["mk1", "mk2", "mk3"] : List String), f ≤ BELT_TIERS t →
      BELT_TIERS (requiredBeltTier f).1 ≤ BELT_TIERS t) ∧
    (0 < f → (requiredBeltTier f).2 = ⌊f / BELT_TIERS (requiredBeltTier f).1⌋ + 1) ∧
    (f = 0 → (requiredBeltTier f).2 = 0) := by
  have e1 : BELT_TIERS "mk1" = 6 := rfl
  have e2 : BELT_TIERS "mk2" = 12 := rfl
  have e3 : BELT_TIERS "mk3" = 30 := rfl
  by_cases h1 : f ≤ 6
  · have hrb : requiredBeltTier f =
        ("mk1", if f > 0 then max 1 (⌊f / 6⌋ + 1) else 0) := by
      simp only [requiredBeltTier]
      rw [e1, if_pos h1]
    rw [hrb]
    refine ⟨fun _ => ?_, ?_, fun hfpos => ?_, fun hf0 => ?_⟩
    · simpa [e1] using h1
    · intro t ht _
      simp only [List.mem_cons, List.not_mem_nil, or_false] at ht
      rcases ht with rfl | rfl | rfl <;> norm_num [e1, e2, e3]
    · simp only [e1]
      rw [if_pos hfpos]
      have hfl : (0 : ℤ) ≤ ⌊f / 6⌋ := Int.floor_nonneg.mpr (by positivity)
      omega
    · subst hf0
      norm_num
  · by_cases h2 : f ≤ 12
    · have hrb : requiredBeltTier f =
          ("mk2", if f > 0 then max 1 (⌊f / 12⌋ + 1) else 0) := by
        simp only [requiredBeltTier]
        rw [e1, e2, if_neg h1, if_pos h2]
      rw [hrb]
      refine ⟨fun _ => ?_, ?_, fun hfpos => ?_, fun hf0 => ?_⟩
      · simpa [e2] using h2
      · intro t ht hcap
        simp only [List.mem_cons, List.not_mem_nil, or_false] at ht
        rcases ht with rfl | rfl | rfl
        · exact absurd (by rwa [e1] at hcap) h1
        · norm_num [e2]
        · norm_num [e2, e3]
      · simp only [e2]
        rw [if_pos hfpos]
        have hfl : (0 : ℤ) ≤ ⌊f / 12⌋ := Int.floor_nonneg.mpr (by positivity)
        omega
      · exact absurd (by rw [hf0]; norm_num) h1
    · have hrb : requiredBeltTier f =
          ("mk3", if f > 0 then max 1 (⌊f / 30⌋ + 1) else 0) := by
        simp only [requiredBeltTier]
        rw [e1, e2, e3, if_neg h1, if_neg h2]
      rw [hrb]
      refine ⟨fun h30 => ?_, ?_, fun hfpos => ?_, fun hf0 => ?_⟩
      · simpa [e3] using h30
      · intro t ht hcap
        simp only [List.mem_cons, List.not_mem_nil, or_false] at ht
        rcases ht with rfl | rfl | rfl
        · exact absurd (by rwa [e1] at hcap) h1
        · exact absurd (by rwa [e2] at hcap) h2
        · norm_num [e3]
      · simp only [e3]
        rw [if_pos hfpos]
        have hfl : (0 : ℤ) ≤ ⌊f / 30⌋ := Int.floor_nonneg.mpr (by positivity)
        omega
      · exact absurd (by rw [hf0]; norm_num) h1

/-- C2 (counterexample): a flow of exactly 6 items/sec (an assembler
producing 360 items/min) is assigned tier `mk1` with belt count 2, while
the claim's `ceil` rule would give 1; a flow of 6.01 items/sec is assigned
tier `mk2` as the claim states. -/
theorem belt_count_counterexample :
    (calculate_throughput_requirements dbW [asmC2]).map
        (fun r => (r.item_id, r.required_belt_tier, r.belt_count_needed)) =
      [(42, "mk1", 2)] ∧
    beltCountClaimed 6 "mk1" = 1 ∧
    (requiredBeltTier 6).2 = 2 ∧
    (requiredBeltTier (601 / 100)).1 = "mk2" := by
  have hd : throughputDicts dbW [asmC2] = ([(42, 360)], []) := by
    norm_num [throughputDicts, dbW, dbOfCatalog, asmC2, recipeW, recipeZ, outW,
      addToDict, List.find?]
  have htier : requiredBeltTier 6 = ("mk1", 2) := by
    norm_num [requiredBeltTier, BELT_TIERS]
  have hprod : lookupDict [(42, (360 : ℚ))] 42 = 360 := by
    norm_num [lookupDict, List.find?]
  have hcons : lookupDict ([] : List (Nat × ℚ)) 42 = 0 := rfl
  have hflow : (((360 : ℚ) ⊔ 0) / 60) = 6 := by norm_num
  refine ⟨?_, ?_, by rw [htier], ?_⟩
  · norm_num [calculate_throughput_requirements, hd, hprod, hcons, hflow, htier]
  · norm_num [beltCountClaimed, BELT_TIERS]
  · norm_num [requiredBeltTier, BELT_TIERS]

/-- C5 (amended): the total theoretical rate is the sum of the group's
`theoretical_max` values exactly when the FIRST assembler's
`theoretical_max` is positive (falling back to the derived rate when that
sum is zero); otherwise it is derived via `calculate_theoretical_rate`. -/
theorem totalTheoretical_amended
    (db : RecipeDatabase) (rid : Nat) (a0 : AssemblerMetrics)
    (rest : List AssemblerMetrics) :
    (0 < a0.theoretical_max →
      ((a0 :: rest).map (·.theoretical_max)).sum ≠ 0 →
      totalTheoretical db rid (a0 :: rest) =
        ((a0 :: rest).map (·.theoretical_max)).sum) ∧
    (0 < a0.theoretical_max →
      ((a0 :: rest).map (·.theoretical_max)).sum = 0 →
      totalTheoretical db rid (a0 :: rest) =
        db.calculate_theoretical_rate rid (a0 :: rest).length) ∧
    (¬ 0 < a0.theoretical_max →
      totalTheoretical db rid (a0 :: rest) =
        db.calculate_theoretical_rate rid (a0 :: rest).length) := by
  simp only [totalTheoretical]
  refine ⟨fun hpos hne => ?_, fun hpos hz => ?_, fun hneg => ?_⟩
  · rw [if_pos hpos, if_neg hne]
  · rw [if_pos hpos, if_pos hz]
  · rw [if_neg hneg, if_pos rfl]

/-- C5 (counterexample): for a group whose first assembler has
`theoretical_max = 10` and whose second has `theoretical_max = 0`, the
code uses the sum 10, while the claim's "populated and nonzero" rule
would derive 120 via `calculate_theoretical_rate`. -/
theorem totalTheoretical_counterexample :
    totalTheoretical dbW 1 [a5a, a5b] = 10 ∧
    totalTheoreticalClaimed dbW 1 [a5a, a5b] = 120 ∧
    totalTheoretical dbW 1 [a5a, a5b] ≠ totalTheoreticalClaimed dbW 1 [a5a, a5b] := by
  have h1 : totalTheoretical dbW 1 [a5a, a5b] = 10 := by
    norm_num [totalTheoretical, a5a, a5b]
  have h2 : totalTheoreticalClaimed dbW 1 [a5a, a5b] = 120 := by
    norm_num [totalTheoreticalClaimed, a5a, a5b, dbW, dbOfCatalog, recipeW,
      recipeZ, outW, List.find?]
  refine ⟨h1, h2, ?_⟩
  rw [h1, h2]
  norm_num

/-- C8: a planet with negative `surplus_mw` is reported with status
`deficit` and a recommendation tiered by deficit magnitude: one thermal
plant below 10 MW, `int(deficit / 15) + 1` fusion plants below 50 MW, and
a major-infrastructure suggestion otherwise. -/
theorem planet_deficit_recommendation (pid : Nat) (power : PowerState)
    (h : power.surplus_mw < 0) :
    (planetPowerEntry pid power).status = "deficit" ∧
    (planetPowerEntry pid power).recommendation =
      some (generate_recommendation power) ∧
    (|power.surplus_mw| < 10 →
      generate_recommendation power = .minor_deficit |power.surplus_mw|) ∧
    (10 ≤ |power.surplus_mw| → |power.surplus_mw| < 50 →
      generate_recommendation power =
        .moderate_deficit |power.surplus_mw| (⌊|power.surplus_mw| / 15⌋ + 1)) ∧
    (50 ≤ |power.surplus_mw| →
      generate_recommendation power = .major_deficit |power.surplus_mw|) := by
  refine ⟨?_, ?_, fun h10 => ?_, fun hge hlt => ?_, fun hge50 => ?_⟩
  · simp only [planetPowerEntry]
    rw [if_neg (not_le.mpr h)]
  · simp only [planetPowerEntry]
    rw [if_pos h]
  · simp only [generate_recommendation]
    rw [if_pos h10]
  · simp only [generate_recommendation]
    rw [if_neg (not_lt.mpr hge), if_pos hlt]
  · simp only [generate_recommendation]
    rw [if_neg (not_lt.mpr (by linarith)), if_neg (not_lt.mpr hge50)]

/-- C9: the global power recommendations contain a CRITICAL deficit entry
exactly when the aggregate surplus is negative, a WARNING entry when the
surplus is positive but under 10% of consumption, and a healthy-surplus
note when the surplus exceeds 50% of consumption. -/
theorem global_power_recommendation_thresholds (g c : ℚ) :
    (hasCritical (global_recommendations g c) = true ↔ g - c < 0) ∧
    (0 < g - c → g - c < c / 10 →
      hasWarning (global_recommendations g c) = true) ∧
    (0 ≤ c → c / 2 < g - c →
      hasHealthy (global_recommendations g c) = true) := by
  simp only [global_recommendations]
  by_cases h1 : g - c < 0
  · rw [if_pos h1]
    refine ⟨by simp [hasCritical, h1], fun hs _ => absurd h1 (by linarith), ?_⟩
    intro hc hs
    have : (0 : ℚ) < g - c := lt_of_le_of_lt (by linarith) hs
    exact absurd h1 (by linarith)
  · rw [if_neg h1]
    by_cases h2 : (if c > 0 then (g - c) / c * 100 else 100) < 10
    · rw [if_pos h2]
      refine ⟨by simp [hasCritical, h1], fun _ _ => by simp [hasWarning], ?_⟩
      intro hc hs
      have hcpos : (0 : ℚ) < c := by
        by_contra hcn
        rw [if_neg hcn] at h2
        norm_num at h2
      rw [if_pos hcpos] at h2
      have h2' : (g - c) * 100 < 10 * c := by
        rw [div_mul_eq_mul_div, div_lt_iff₀ hcpos] at h2
        linarith
      linarith
    · rw [if_neg h2]
      by_cases h3 : (if c > 0 then (g - c) / c * 100 else 100) > 50
      · rw [if_pos h3]
        refine ⟨by simp [hasCritical, h1], ?_, fun _ _ => by simp [hasHealthy]⟩
        intro hs hlt
        have hcpos : (0 : ℚ) < c := by linarith
        refine absurd ?_ h2
        rw [if_pos hcpos, div_mul_eq_mul_div, div_lt_iff₀ hcpos]
        linarith
      · rw [if_neg h3]
        refine ⟨by simp [hasCritical, h1], ?_, ?_⟩
        · intro hs hlt
          have hcpos : (0 : ℚ) < c := by nlinarith
          rw [if_pos hcpos] at h2
          refine absurd ?_ h2
          rw [div_mul_eq_mul_div, div_lt_iff₀ hcpos]
          linarith
        · intro hc hs
          rcases lt_or_eq_of_le hc with hcpos | hceq
          · rw [if_pos hcpos] at h3
            refine absurd ?_ h3
            show (50 : ℚ) < (g - c) / c * 100
            rw [div_mul_eq_mul_div, lt_div_iff₀ hcpos]
            linarith
          · rw [if_neg (by rw [← hceq]; norm_num : ¬ c > 0)] at h3
            norm_num at h3

/-! Witnesses: each applies its claim theorem at a concrete input. -/

/-- C1 witness: a group of 4 assemblers with 2 starved and 2 blocked
(both fractions 50% > 30%) is classified `input_starvation`. -/
theorem bottleneck_classification_precedence_witness :
    ((starvedCount [aS, aS, aB, aB] : ℚ) >
      (([aS, aS, aB, aB] : List AssemblerMetrics).length : ℚ) * (3 / 10)) ∧
    ((blockedCount [aS, aS, aB, aB] : ℚ) >
      (([aS, aS, aB, aB] : List AssemblerMetrics).length : ℚ) * (3 / 10)) ∧
    (mkGroupBottleneck dbW 1 recipeW aS [aS, aB, aB] true "input_starvation"
        ((starvedCount [aS, aS, aB, aB] : ℚ) /
          (([aS, aS, aB, aB] : List AssemblerMetrics).length : ℚ) * 100)).bottleneck_type =
      "input_starvation" := by
  have hsc : starvedCount [aS, aS, aB, aB] = 2 := rfl
  have hbc : blockedCount [aS, aS, aB, aB] = 2 := rfl
  have hlen : ([aS, aS, aB, aB] : List AssemblerMetrics).length = 4 := rfl
  have hcond : (starvedCount [aS, aS, aB, aB] : ℚ) >
      (([aS, aS, aB, aB] : List AssemblerMetrics).length : ℚ) * (3 / 10) := by
    rw [hsc, hlen]; norm_num
  have hbcond : (blockedCount [aS, aS, aB, aB] : ℚ) >
      (([aS, aS, aB, aB] : List AssemblerMetrics).length : ℚ) * (3 / 10) := by
    rw [hbc, hlen]; norm_num
  have hb := analyze_recipe_group_starved dbW 1 aS [aS, aB, aB] planetW true recipeW rfl hcond
  exact ⟨hcond, hbcond,
    (bottleneck_classification_precedence dbW 1 aS [aS, aB, aB] planetW true _ hb).1 hcond⟩

/-- C3 witness: 4 assemblers with exactly 2 starved yield an
`input_starvation` bottleneck of severity 50. -/
theorem starvation_bottleneck_severity_witness :
    ((starvedCount [aS, aS, aB, aB] : ℚ) >
      (([aS, aS, aB, aB] : List AssemblerMetrics).length : ℚ) * (3 / 10)) ∧
    (analyze_recipe_group dbW 1 [aS, aS, aB, aB] planetW true).map Bottleneck.severity =
      some 50 ∧
    (analyze_recipe_group dbW 1 [aS, aS, aB, aB] planetW true).map Bottleneck.bottleneck_type =
      some "input_starvation" := by
  have hsc : starvedCount [aS, aS, aB, aB] = 2 := rfl
  have hlen : ([aS, aS, aB, aB] : List AssemblerMetrics).length = 4 := rfl
  have hcond : (starvedCount [aS, aS, aB, aB] : ℚ) >
      (([aS, aS, aB, aB] : List AssemblerMetrics).length : ℚ) * (3 / 10) := by
    rw [hsc, hlen]; norm_num
  obtain ⟨b, hb, hty, hsev⟩ :=
    starvation_bottleneck_severity dbW 1 aS [aS, aB, aB] planetW true recipeW rfl hcond
  have hs50 : b.severity = 50 := by
    rw [hsev, hsc, hlen]; norm_num
  refine ⟨hcond, ?_, ?_⟩ <;> rw [hb]
  · rw [Option.map_some', hs50]
  · rw [Option.map_some', hty]

/-- C4 witness: raising the starved fraction from 0.4 (2 of 5) to 0.6
(3 of 5) strictly increases severity. -/
theorem starvation_severity_strict_mono_witness :
    (mkGroupBottleneck dbW 1 recipeW aS [aS, aH, aH, aH] true "input_starvation"
        ((starvedCount [aS, aS, aH, aH, aH] : ℚ) /
          (([aS, aS, aH, aH, aH] : List AssemblerMetrics).length : ℚ) * 100)).severity <
    (mkGroupBottleneck dbW 1 recipeW aS [aS, aS, aH, aH] true "input_starvation"
        ((starvedCount [aS, aS, aS, aH, aH] : ℚ) /
          (([aS, aS, aS, aH, aH] : List AssemblerMetrics).length : ℚ) * 100)).severity := by
  have hs1 : starvedCount [aS, aS, aH, aH, aH] = 2 := rfl
  have hs2 : starvedCount [aS, aS, aS, aH, aH] = 3 := rfl
  have hcond : (starvedCount [aS, aS, aH, aH, aH] : ℚ) >
      (([aS, aS, aH, aH, aH] : List AssemblerMetrics).length : ℚ) * (3 / 10) := by
    rw [hs1, show ([aS, aS, aH, aH, aH] : List AssemblerMetrics).length = 5 from rfl]
    norm_num
  have hcond2 : (starvedCount [aS, aS, aS, aH, aH] : ℚ) >
      (([aS, aS, aS, aH, aH] : List AssemblerMetrics).length : ℚ) * (3 / 10) := by
    rw [hs2, show ([aS, aS, aS, aH, aH] : List AssemblerMetrics).length = 5 from rfl]
    norm_num
  have hb1 := analyze_recipe_group_starved dbW 1 aS [aS, aH, aH, aH] planetW true recipeW rfl hcond
  have hb2 := analyze_recipe_group_starved dbW 1 aS [aS, aS, aH, aH] planetW true recipeW rfl hcond2
  exact starvation_severity_strict_mono dbW 1 aS [aS, aH, aH, aH] aS [aS, aS, aH, aH]
    planetW true _ _ rfl hcond (by rw [hs1, hs2]; norm_num) hb1 hb2

/-- C6 witness: a single starved assembler on the zero-time recipe has
total theoretical rate 0, reports efficiency 100, and is classified
`input_starvation`, not `low_efficiency`. -/
theorem zero_theoretical_full_efficiency_witness :
    totalTheoretical dbW 2 [aZ] = 0 ∧
    (mkGroupBottleneck dbW 2 recipeZ aZ [] true "input_starvation"
        ((starvedCount [aZ] : ℚ) /
          (([aZ] : List AssemblerMetrics).length : ℚ) * 100)).efficiency = 100 ∧
    (mkGroupBottleneck dbW 2 recipeZ aZ [] true "input_starvation"
        ((starvedCount [aZ] : ℚ) /
          (([aZ] : List AssemblerMetrics).length : ℚ) * 100)).bottleneck_type ≠
      "low_efficiency" := by
  have h0 : totalTheoretical dbW 2 [aZ] = 0 := by
    norm_num [totalTheoretical, aZ, dbW, dbOfCatalog, recipeW, recipeZ, outW, List.find?,
      show ((1 : Nat) == 2) = false from rfl]
  have hcond : (starvedCount [aZ] : ℚ) >
      (([aZ] : List AssemblerMetrics).length : ℚ) * (3 / 10) := by
    rw [show starvedCount [aZ] = 1 from rfl,
      show ([aZ] : List AssemblerMetrics).length = 1 from rfl]
    norm_num
  have hb := analyze_recipe_group_starved dbW 2 aZ [] planetW true recipeZ rfl hcond
  have h := zero_theoretical_full_efficiency dbW 2 aZ [] planetW true _ h0 hb
  exact ⟨h0, h.2.1, h.2.2⟩

/-- C7 witness: a snapshot with one planet and no buildings yields the
healthy summary with efficiency 100 and no bottlenecks. -/
theorem no_buildings_healthy_report_witness :
    (analyze dbW stateE none none true).summary.status = "healthy" ∧
    (analyze dbW stateE none none true).summary.efficiency = 100 ∧
    (analyze dbW stateE none none true).bottlenecks = [] := by
  apply no_buildings_healthy_report
  intro p hp _
  simp only [stateE, List.mem_singleton] at hp
  subst hp
  rfl

/-- C10 witness: a target name absent from the catalog leaves the analysis
identical to the unfiltered analysis. -/
theorem unresolved_target_ignored_witness :
    analyze dbW stateW none (some "unobtainium") true =
      analyze dbW stateW none none true :=
  unresolved_target_ignored dbW stateW none "unobtainium" true rfl

/-- C2 (amended) witness: a flow of exactly 6 items/sec is covered by the
chosen tier and gets belt count `⌊6 / capacity⌋ + 1` (= 2). -/
theorem belt_tier_amended_witness :
    (0 : ℚ) ≤ 6 ∧ (6 : ℚ) ≤ BELT_TIERS (requiredBeltTier 6).1 ∧
    (requiredBeltTier 6).2 = ⌊(6 : ℚ) / BELT_TIERS (requiredBeltTier 6).1⌋ + 1 := by
  have h := belt_tier_amended 6 (by norm_num)
  exact ⟨by norm_num, h.1 (by norm_num), h.2.2.1 (by norm_num)⟩

/-- C5 (amended) witness: with the first assembler's `theoretical_max`
positive and a nonzero sum, the code uses the sum. -/
theorem totalTheoretical_amended_witness :
    (0 : ℚ) < a5a.theoretical_max ∧
    ([a5a, a5b].map (·.theoretical_max)).sum ≠ 0 ∧
    totalTheoretical dbW 1 [a5a, a5b] = ([a5a, a5b].map (·.theoretical_max)).sum := by
  have hpos : (0 : ℚ) < a5a.theoretical_max := by norm_num [a5a]
  have hne : ([a5a, a5b].map (·.theoretical_max)).sum ≠ 0 := by norm_num [a5a, a5b]
  exact ⟨hpos, hne, (totalTheoretical_amended dbW 1 a5a [a5b]).1 hpos hne⟩

/-- C8 witness: generation 80, consumption 100, surplus −20 gives status
`deficit` and the moderate-tier recommendation of 2 fusion plants for the
20 MW deficit. -/
theorem planet_deficit_recommendation_witness :
    powerW.surplus_mw < 0 ∧
    (planetPowerEntry 1 powerW).status = "deficit" ∧
    (planetPowerEntry 1 powerW).recommendation =
      some (PowerRecommendation.moderate_deficit 20 2) := by
  have hneg : powerW.surplus_mw < 0 := by norm_num [powerW]
  have h := planet_deficit_recommendation 1 powerW hneg
  refine ⟨hneg, h.1, ?_⟩
  rw [h.2.1]
  have habs : |powerW.surplus_mw| = 20 := by norm_num [powerW]
  have hmod := h.2.2.2.1 (by rw [habs]; norm_num) (by rw [habs]; norm_num)
  rw [hmod, habs, show (⌊(20 : ℚ) / 15⌋ : ℤ) + 1 = 2 by norm_num]

/-- C9 witness: generation 200, consumption 100 (surplus 100%) produces
the healthy-surplus note. -/
theorem global_power_recommendation_thresholds_witness :
    (0 : ℚ) ≤ 100 ∧ (100 : ℚ) / 2 < 200 - 100 ∧
    hasHealthy (global_recommendations 200 100) = true :=
  ⟨by norm_num, by norm_num,
    (global_power_recommendation_thresholds 200 100).2.2 (by norm_num) (by norm_num)⟩

end Dyson
